import Mathlib

/-!
Shallow embedding of the resilient flight-data provider in `src/aviation.py`
(class `FlightDataProvider` and the display loop in `main`).

Mutable provider/session state (`self.use_mock`, `st.session_state.api_calls`)
is passed explicitly as a `ProviderState`.  The outcome of the outbound HTTP
request (`requests.get`) or of the LLM call (`openai` + `json.loads`) is an
explicit parameter, since it is decided by the outside world; every branch of
the Python code on that outcome is reproduced.  Flight times in the mock data
depend on `datetime.now()`; they enter only as four formatted strings, so the
mock dataset is parametrised by those four strings (`MockTimes`).
-/

/-- A normalized airport entry: `{"iata": ..., "name": ...}` as built by
`get_city_airports` and stored in `mock_airports`. -/
structure Airport where
  iata : String
  name : String
deriving DecidableEq, Repr

/-- A raw airport record from the remote `/airports` endpoint: both fields may
be missing from the JSON object. -/
structure RawAirport where
  iata_code : Option String
  airport_name : Option String
deriving DecidableEq, Repr

/-- The `{"number": ...}` sub-object of a flight record. -/
structure FlightNumObj where
  number : Option String
deriving DecidableEq, Repr

/-- The `{"name": ...}` sub-object of a flight record. -/
structure AirlineNameObj where
  name : Option String
deriving DecidableEq, Repr

/-- The `{"scheduled": ...}` sub-object of a flight record. -/
structure SchedObj where
  scheduled : Option String
deriving DecidableEq, Repr

/-- A flight record as a JSON dictionary: every key, including the nested
objects, may be absent (`none`). Mock records always have every field. -/
structure FlightJson where
  flight : Option FlightNumObj
  airline : Option AirlineNameObj
  departure : Option SchedObj
  arrival : Option SchedObj
  flight_status : Option String
deriving DecidableEq, Repr

/-- A price dictionary `{min_price, max_price, currency}`. -/
structure Price where
  min_price : Int
  max_price : Int
  currency : String
deriving DecidableEq, Repr

/-- The mutable state the provider reads and writes:
`self.use_mock` and `st.session_state.api_calls`. -/
structure ProviderState where
  use_mock : Bool
  api_calls : Nat
deriving DecidableEq, Repr

/-- Result of one provider query: the returned value, the provider state
after the call, and whether a remote call (HTTP or LLM) was attempted. -/
structure QueryStep (α : Type) where
  result : α
  state : ProviderState
  remoteAttempted : Bool

/-- Outcome of an outbound `requests.get` call: either a response with a
status code and (for 200-responses) the parsed `data` array, or a raised
exception (connection error, timeout, malformed JSON body, ...). -/
inductive RemoteOutcome (β : Type) where
  | resp (statusCode : Nat) (data : β)
  | exn
deriving DecidableEq, Repr

/-- Outcome of the LLM price call: either the message content parsed by
`json.loads` into a price dictionary, or a raised exception (API error or
unparsable content). -/
inductive LlmOutcome where
  | ok (p : Price)
  | exn
deriving DecidableEq, Repr

/-- The four formatted timestamp strings that seed the mock flight data
(morning/evening departure and arrival, from `datetime.now()`). -/
structure MockTimes where
  mDep : String
  mArr : String
  eDep : String
  eArr : String
deriving DecidableEq, Repr

/-- `self.mock_airports` from `_init_mock_data`: 5 cities. -/
def mock_airports : List (String × List Airport) :=
  [(("New York"), [⟨"JFK", "John F. Kennedy International"⟩, ⟨"LGA", "LaGuardia Airport"⟩]),
   (("London"), [⟨"LHR", "Heathrow Airport"⟩, ⟨"LGW", "Gatwick Airport"⟩]),
   (("Tokyo"), [⟨"HND", "Haneda Airport"⟩, ⟨"NRT", "Narita International"⟩]),
   (("Dubai"), [⟨"DXB", "Dubai International"⟩]),
   (("Singapore"), [⟨"SIN", "Changi Airport"⟩])]

/-- `self.mock_airports.get(city, [])`. -/
def mockAirportsGet (city : String) : List Airport :=
  (List.lookup city mock_airports).getD []

/-- The `route_pairs` list of `_init_mock_data`. -/
def route_pairs : List (String × String) :=
  [("JFK", "LHR"), ("LHR", "HND"), ("HND", "DXB"), ("DXB", "SIN")]

/-- The `airlines` list of `_init_mock_data` (code, name). -/
def airlines : List (String × String) :=
  [("BA", "British Airways"), ("AA", "American Airlines"),
   ("EK", "Emirates"), ("SQ", "Singapore Airlines")]

/-- One fully-populated mock flight record. -/
def mkMockFlight (num airlineName depT arrT : String) : FlightJson :=
  ⟨some ⟨some num⟩, some ⟨some airlineName⟩, some ⟨some depT⟩, some ⟨some arrT⟩,
   some ("scheduled")⟩

/-- The inner loop of `_init_mock_data` building one route's flight list:
for each airline a morning flight numbered `code{100 + len(flights)}` and an
evening flight numbered `code{200 + len(flights)}` (the length taken after
the morning flight was appended). -/
def mkRouteFlights (t : MockTimes) : List FlightJson :=
  airlines.foldl
    (fun flights al =>
      let f1 := flights ++ [mkMockFlight (al.1 ++ toString (100 + flights.length)) al.2 t.mDep t.mArr]
      f1 ++ [mkMockFlight (al.1 ++ toString (200 + f1.length)) al.2 t.eDep t.eArr])
    []

/-- `self.mock_routes`: each route pair mapped to its generated flight list
(the generated list is the same for every route). -/
def mock_routes (t : MockTimes) : List ((String × String) × List FlightJson) :=
  route_pairs.map (fun pr => (pr, mkRouteFlights t))

/-- `self.mock_routes.get(route_key, [])`. -/
def mockRoutesGet (t : MockTimes) (key : String × String) : List FlightJson :=
  (List.lookup key (mock_routes t)).getD []

/-- `self.mock_prices` from `_init_mock_data`. -/
def mock_prices : List ((String × String) × Price) :=
  [(("New York", "London"), ⟨450, 800, "USD"⟩),
   (("London", "Tokyo"), ⟨700, 1200, "USD"⟩),
   (("Tokyo", "Dubai"), ⟨600, 900, "USD"⟩),
   (("Dubai", "Singapore"), ⟨400, 700, "USD"⟩)]

/-- The inline default `{"min_price": 500, "max_price": 1000, "currency": "USD"}`
used by `get_flight_price_estimate` when the route is not in `mock_prices`. -/
def defaultPrice : Price := ⟨500, 1000, "USD"⟩

/-- `self.mock_prices.get((departure_city, arrival_city), default)`. -/
def mockPricesGet (dep arr : String) : Price :=
  (List.lookup (dep, arr) mock_prices).getD defaultPrice

/-- Python truthiness of `airport.get("iata_code")`: false for a missing key
and for the empty string. -/
def truthyStr : Option String → Bool
  | none => false
  | some s => !s.isEmpty

/-- The list comprehension of `get_city_airports` on a 200 response:
keep records whose `iata_code` is truthy and project `iata`/`name` by direct
subscripting; a missing `airport_name` raises `KeyError` (`none`), which
aborts the whole comprehension. -/
def normalizeAirports (data : List RawAirport) : Option (List Airport) :=
  (data.filter (fun a => truthyStr a.iata_code)).mapM
    (fun a =>
      match a.iata_code, a.airport_name with
      | some i, some n => some ⟨i, n⟩
      | _, _ => none)

/-- `FlightDataProvider.get_city_airports` (lines 116-151).  Branches, in
order: mock mode; quota guard `api_calls >= 95` (flips `use_mock`); otherwise
increment the counter and perform the HTTP call, whose outcome is `remote`:
on status 200 return the normalized `data` array (an exception while
normalizing falls into the `except` branch, which returns mock data), on any
other status return `[]`, and on an exception return mock data. -/
def get_city_airports (s : ProviderState) (remote : RemoteOutcome (List RawAirport))
    (city : String) : QueryStep (List Airport) :=
  if s.use_mock then
    ⟨mockAirportsGet city, s, false⟩
  else if 95 ≤ s.api_calls then
    ⟨mockAirportsGet city, { s with use_mock := true }, false⟩
  else
    let s1 : ProviderState := { s with api_calls := s.api_calls + 1 }
    match remote with
    | RemoteOutcome.resp code data =>
      if code = 200 then
        match normalizeAirports data with
        | some airports => ⟨airports, s1, true⟩
        | none => ⟨mockAirportsGet city, s1, true⟩
      else ⟨[], s1, true⟩
    | RemoteOutcome.exn => ⟨mockAirportsGet city, s1, true⟩

/-- `FlightDataProvider.search_flights` (lines 153-184). Same branch
structure as `get_city_airports`; on status 200 the raw `data` array is
returned unchanged (no normalization), on any other status `[]`, and on an
exception the mock route data. -/
def search_flights (t : MockTimes) (s : ProviderState)
    (remote : RemoteOutcome (List FlightJson))
    (departure_city arrival_city departure_date : String) : QueryStep (List FlightJson) :=
  if s.use_mock then
    ⟨mockRoutesGet t (departure_city, arrival_city), s, false⟩
  else if 95 ≤ s.api_calls then
    ⟨mockRoutesGet t (departure_city, arrival_city), { s with use_mock := true }, false⟩
  else
    let s1 : ProviderState := { s with api_calls := s.api_calls + 1 }
    match remote with
    | RemoteOutcome.resp code data =>
      if code = 200 then ⟨data, s1, true⟩ else ⟨[], s1, true⟩
    | RemoteOutcome.exn => ⟨mockRoutesGet t (departure_city, arrival_city), s1, true⟩

/-- `FlightDataProvider.get_flight_price_estimate` (lines 186-219). In mock
mode return the mock price (with the inline default); otherwise call the LLM
(there is no `api_calls` quota guard on this path): a successfully parsed
response is returned as-is, an exception returns the mock price.  The state
is never mutated by this method. -/
def get_flight_price_estimate (s : ProviderState) (llm : LlmOutcome)
    (departure_city arrival_city : String) : QueryStep (Option Price) :=
  if s.use_mock then
    ⟨some (mockPricesGet departure_city arrival_city), s, false⟩
  else
    match llm with
    | LlmOutcome.ok p => ⟨some p, s, true⟩
    | LlmOutcome.exn => ⟨some (mockPricesGet departure_city arrival_city), s, true⟩

/-- Python `str.title()`: uppercase every alphabetic character that follows a
non-alphabetic one, lowercase the rest. -/
def pyTitleAux : List Char → Bool → List Char
  | [], _ => []
  | c :: cs, prevAlpha =>
    (if c.isAlpha then (if prevAlpha then c.toLower else c.toUpper) else c)
      :: pyTitleAux cs c.isAlpha

/-- Python `str.title()` on a string. -/
def pyTitle (s : String) : String := ⟨pyTitleAux s.data false⟩

/-- One row of the display table built in `main` (lines 301-309). -/
structure FlightRow where
  flightNumber : String
  airlineName : String
  departure : String
  arrival : String
  status : String
deriving DecidableEq, Repr

/-- Building one display row by direct dictionary subscripting
(`flight["flight"]["number"]`, `flight["airline"]["name"]`, ...): any missing
key raises `KeyError`, modelled as `none`. -/
def buildFlightRow (f : FlightJson) : Option FlightRow :=
  match f.flight, f.airline, f.departure, f.arrival, f.flight_status with
  | some fl, some al, some d, some a, some fs =>
    match fl.number, al.name, d.scheduled, a.scheduled with
    | some num, some nm, some ds, some arrS => some ⟨num, nm, ds, arrS, pyTitle fs⟩
    | _, _, _, _ => none
  | _, _, _, _, _ => none

/-- The `for flight in flights` loop of `main`: a `KeyError` on any record
propagates out of the loop, so the whole batch is lost (`none`). -/
def buildFlightData : List FlightJson → Option (List FlightRow)
  | [] => some []
  | f :: rest =>
    match buildFlightRow f, buildFlightData rest with
    | some r, some rs => some (r :: rs)
    | _, _ => none

/-- The session-state initialization (lines 20-21): if `api_calls` is not in
`st.session_state` (a fresh session or process), it becomes 0; otherwise the
in-session value is kept.  There is no date field and no on-disk persistence. -/
def initApiCalls (prev : Option Nat) : Nat := prev.getD 0

/-- Concrete mock-time strings used as witnesses. -/
def tJ : MockTimes :=
  ⟨"2024-06-01T08:00:00Z", "2024-06-01T16:00:00Z",
   "2024-06-01T18:00:00Z", "2024-06-02T02:00:00Z"⟩

/-- A fully-populated flight record, as the mock generator produces. -/
def goodFlight : FlightJson := mkMockFlight ("BA100") ("British Airways") ("t1") ("t2")

/-- A flight record whose `airline` object is missing entirely. -/
def badFlight : FlightJson :=
  ⟨some ⟨some ("XX123")⟩, none, some ⟨some ("t1")⟩, some ⟨some ("t2")⟩, some ("scheduled")⟩

/-- A numerically invalid price dictionary (min above max), as an upstream
LLM response could parse to. -/
def invalidPrice : Price := ⟨900, 100, "USD"⟩

/-- Lookup in an association list whose values are all `v`. -/
theorem lookup_map_const {α β : Type} [BEq α] [LawfulBEq α] (l : List α) (v : β) (k : α) :
    List.lookup k (l.map (fun a => (a, v))) = if k ∈ l then some v else none := by
  induction l with
  | nil => simp [List.lookup]
  | cons hd tl ih =>
    by_cases h : k = hd
    · subst h; simp [List.lookup]
    · simp only [List.map, List.lookup, ih, beq_false_of_ne h]
      simp [List.mem_cons, h]

/-- A property holding of the default and of every value in an association
list holds of any `getD`-lookup result. -/
theorem lookup_getD_prop {α β : Type} [BEq α] (P : β → Prop) (k : α)
    (l : List (α × β)) (d : β) (hd : P d) (hl : ∀ p ∈ l, P p.2) :
    P ((List.lookup k l).getD d) := by
  induction l with
  | nil => simpa [List.lookup] using hd
  | cons p tl ih =>
    rcases p with ⟨k2, v2⟩
    rw [List.lookup]
    cases hbe : k == k2
    · simp only [hbe]
      exact ih (fun q hq => hl q (List.mem_cons_of_mem _ hq))
    · simp only [hbe, Option.getD_some]
      exact hl ⟨k2, v2⟩ (List.mem_cons_self _ _)

/-- Every mock price (incl. the default) is non-negative and ordered. -/
theorem mockPricesGet_valid (dep arr : String) :
    0 ≤ (mockPricesGet dep arr).min_price ∧
    (mockPricesGet dep arr).min_price ≤ (mockPricesGet dep arr).max_price := by
  exact lookup_getD_prop
    (fun p => 0 ≤ p.min_price ∧ p.min_price ≤ p.max_price)
    (dep, arr) mock_prices defaultPrice (by decide) (by decide)

/-- Each route's generated flight list has 8 records (4 airlines, 2 each). -/
theorem mkRouteFlights_length (t : MockTimes) : (mkRouteFlights t).length = 8 := rfl

/-- Any successful lookup in `mock_routes` yields the generated flight list. -/
theorem mock_routes_lookup_some (t : MockTimes) (pr : String × String)
    (fl : List FlightJson) (h : List.lookup pr (mock_routes t) = some fl) :
    fl = mkRouteFlights t := by
  rw [mock_routes, lookup_map_const] at h
  split at h
  · exact (Option.some_injective _ h).symm
  · exact absurd h (by simp)

/-- Routes absent from `route_pairs` have no mock flights. -/
theorem mockRoutesGet_eq_empty (t : MockTimes) (k : String × String)
    (h : k ∉ route_pairs) : mockRoutesGet t k = [] := by
  rw [mockRoutesGet, mock_routes, lookup_map_const]
  simp [h]

/-- Claim C5, counterexample: a batch holding a good record and a record with
no `airline.name` produces no rows at all (the `KeyError` kills the batch,
dropping the good sibling), while the good record alone produces its row;
nothing is normalized to the string Unknown. -/
theorem missing_airline_name_drops_batch :
    buildFlightData [goodFlight, badFlight] = none ∧
    buildFlightData [goodFlight] =
      some [⟨"BA100", "British Airways", "t1", "t2", "Scheduled"⟩] := by
  exact ⟨rfl, rfl⟩

/-- Claim C5, amended: a flight record missing `airline.name` makes the
row-building subscript raise (`none`), and any batch containing such a record
yields no rows at all — the siblings are dropped with it. -/
theorem missing_airline_name_raises_and_fails_batch
    (f : FlightJson) (h : f.airline = none) (l1 l2 : List FlightJson) :
    buildFlightRow f = none ∧ buildFlightData (l1 ++ f :: l2) = none := by
  have hrow : buildFlightRow f = none := by
    rcases f with ⟨fl, al, d, arv, fs⟩
    simp only at h
    subst h
    cases fl <;> cases d <;> cases arv <;> cases fs <;> rfl
  refine ⟨hrow, ?_⟩
  induction l1 with
  | nil => simp only [List.nil_append, buildFlightData, hrow]
  | cons a tl ih =>
    simp only [List.cons_append, buildFlightData, List.append_eq, ih]
    cases buildFlightRow a <;> rfl

/-- Claim C5 witness: instantiating the amended claim on the concrete bad
record inside a concrete batch. -/
theorem missing_airline_name_raises_and_fails_batch_witness :
    badFlight.airline = none ∧
    (buildFlightRow badFlight = none ∧
     buildFlightData ([goodFlight] ++ badFlight :: [goodFlight]) = none) :=
  ⟨rfl, missing_airline_name_raises_and_fails_batch badFlight rfl [goodFlight] [goodFlight]⟩

/-- Claim C7, counterexample: two airport queries that differ only in the
letter case of the city return different results, so case-differing queries
are not canonicalized to one cache entry with one shared result. -/
theorem case_differing_queries_differ :
    ¬ ((get_city_airports ⟨true, 0⟩ (RemoteOutcome.resp 200 []) ("new york")).result =
       (get_city_airports ⟨true, 0⟩ (RemoteOutcome.resp 200 []) ("New York")).result) := by
  decide

/-- Claim C7, amended: query keys are the raw, case-sensitive arguments for
every query type: city/IATA strings differing only in case are distinct keys
and can produce different results (lower-case variants miss the mock tables). -/
theorem lookups_are_case_sensitive :
    (get_city_airports ⟨true, 0⟩ (RemoteOutcome.resp 200 []) ("new york")).result = [] ∧
    (get_city_airports ⟨true, 0⟩ (RemoteOutcome.resp 200 []) ("New York")).result =
      [⟨"JFK", "John F. Kennedy International"⟩, ⟨"LGA", "LaGuardia Airport"⟩] ∧
    (search_flights tJ ⟨true, 0⟩ RemoteOutcome.exn ("jfk") ("lhr") ("2024-06-01")).result = [] ∧
    (search_flights tJ ⟨true, 0⟩ RemoteOutcome.exn ("JFK") ("LHR") ("2024-06-01")).result =
      mkRouteFlights tJ ∧
    (get_flight_price_estimate ⟨true, 0⟩ LlmOutcome.exn ("new york") ("london")).result =
      some defaultPrice ∧
    (get_flight_price_estimate ⟨true, 0⟩ LlmOutcome.exn ("New York") ("London")).result =
      some ⟨450, 800, "USD"⟩ :=
  ⟨rfl, rfl, rfl, rfl, rfl, rfl⟩

/-- Claim C8, counterexample: a fresh session (process restart) has no stored
counter, so the loaded count is 0, not the previously persisted 42; the
stored quota state has no date field at all. -/
theorem quota_counter_resets_on_new_session :
    initApiCalls none = 0 ∧ (0 : Nat) ≠ 42 := by decide

/-- Claim C8, amended: the quota counter `st.session_state.api_calls` is set
to 0 whenever it is absent (every new session or process) and kept unchanged
otherwise; it carries no date, is never written to disk, and so does not
round-trip across restarts and has no period-based reset. -/
theorem api_calls_init_semantics :
    initApiCalls none = 0 ∧ ∀ n : Nat, initApiCalls (some n) = n :=
  ⟨rfl, fun _ => rfl⟩

/-- Claim C9: in mock mode the price estimate is total: it always returns
`some` dictionary (the mock price for the route), and when the route is not
in the mock price table that dictionary is the inline default
`{min_price: 500, max_price: 1000, currency: USD}`. -/
theorem mock_price_estimate_total_with_default
    (s : ProviderState) (h : s.use_mock = true) (llm : LlmOutcome) (dep arr : String) :
    (get_flight_price_estimate s llm dep arr).result = some (mockPricesGet dep arr) ∧
    (List.lookup (dep, arr) mock_prices = none → mockPricesGet dep arr = defaultPrice) ∧
    defaultPrice = ⟨500, 1000, "USD"⟩ := by
  rcases s with ⟨um, ac⟩
  simp only at h
  subst h
  refine ⟨rfl, fun hl => ?_, rfl⟩
  rw [mockPricesGet, hl]
  rfl

/-- Claim C9 witness: a route absent from the mock price table gets the
default estimate. -/
theorem mock_price_estimate_total_with_default_witness :
    ((⟨true, 3⟩ : ProviderState).use_mock = true) ∧
    ((get_flight_price_estimate ⟨true, 3⟩ LlmOutcome.exn ("Paris") ("Rome")).result =
       some (mockPricesGet ("Paris") ("Rome")) ∧
     (List.lookup (("Paris"), ("Rome")) mock_prices = none →
       mockPricesGet ("Paris") ("Rome") = defaultPrice) ∧
     defaultPrice = ⟨500, 1000, "USD"⟩) :=
  ⟨rfl, mock_price_estimate_total_with_default ⟨true, 3⟩ rfl LlmOutcome.exn ("Paris") ("Rome")⟩

/-- Claim C10: in mock mode, flight search results are non-empty only for the
four exact ordered route pairs of the table; the reverse of each route yields
the empty list. -/
theorem fallback_routes_strictly_directional
    (t : MockTimes) (s : ProviderState) (remote : RemoteOutcome (List FlightJson))
    (date : String) (h : s.use_mock = true) :
    (∀ dep arr, (search_flights t s remote dep arr date).result ≠ [] →
        ((dep, arr) = (("JFK"), ("LHR")) ∨ (dep, arr) = (("LHR"), ("HND")) ∨
         (dep, arr) = (("HND"), ("DXB")) ∨ (dep, arr) = (("DXB"), ("SIN")))) ∧
    (search_flights t s remote ("LHR") ("JFK") date).result = [] ∧
    (search_flights t s remote ("HND") ("LHR") date).result = [] ∧
    (search_flights t s remote ("DXB") ("HND") date).result = [] ∧
    (search_flights t s remote ("SIN") ("DXB") date).result = [] := by
  rcases s with ⟨um, ac⟩
  simp only at h
  subst h
  have hres : ∀ dep arr, (search_flights t ⟨true, ac⟩ remote dep arr date).result =
      mockRoutesGet t (dep, arr) := fun dep arr => rfl
  refine ⟨?_, ?_, ?_, ?_, ?_⟩
  · intro dep arr hne
    rw [hres] at hne
    by_contra hmem
    push_neg at hmem
    refine hne (mockRoutesGet_eq_empty t _ ?_)
    simp only [route_pairs, List.mem_cons, List.not_mem_nil, or_false]
    tauto
  · exact (hres _ _).trans (mockRoutesGet_eq_empty t _ (by decide))
  · exact (hres _ _).trans (mockRoutesGet_eq_empty t _ (by decide))
  · exact (hres _ _).trans (mockRoutesGet_eq_empty t _ (by decide))
  · exact (hres _ _).trans (mockRoutesGet_eq_empty t _ (by decide))

/-- Claim C10 witness: the JFK-to-LHR mock result is non-empty and its key is
the first table route; the reverse query returns the empty list. -/
theorem fallback_routes_strictly_directional_witness :
    ((⟨true, 0⟩ : ProviderState).use_mock = true) ∧
    ((search_flights tJ ⟨true, 0⟩ RemoteOutcome.exn ("JFK") ("LHR") ("2024-06-01")).result ≠ []) ∧
    (((("JFK"), ("LHR")) : String × String) = (("JFK"), ("LHR")) ∨
     ((("JFK"), ("LHR")) : String × String) = (("LHR"), ("HND")) ∨
     ((("JFK"), ("LHR")) : String × String) = (("HND"), ("DXB")) ∨
     ((("JFK"), ("LHR")) : String × String) = (("DXB"), ("SIN"))) ∧
    (search_flights tJ ⟨true, 0⟩ RemoteOutcome.exn ("LHR") ("JFK") ("2024-06-01")).result = [] :=
  ⟨rfl, by decide,
   (fallback_routes_strictly_directional tJ ⟨true, 0⟩ RemoteOutcome.exn ("2024-06-01") rfl).1
     ("JFK") ("LHR") (by decide),
   (fallback_routes_strictly_directional tJ ⟨true, 0⟩ RemoteOutcome.exn ("2024-06-01") rfl).2.1⟩

/-- Claim C6: the fallback tables have 5 cities, 4 directed routes and 4
airlines with 2 departures each, every route in the table carries exactly 8
generated flight records, and a mock-mode JFK-to-LHR search returns those 8
records rather than an error. -/
theorem fallback_dataset_shape_and_jfk_lhr_flights
    (t : MockTimes) (s : ProviderState) (remote : RemoteOutcome (List FlightJson))
    (date : String) :
    mock_airports.length = 5 ∧
    (mock_routes t).length = 4 ∧
    airlines.length = 4 ∧
    (∀ pr fl, List.lookup pr (mock_routes t) = some fl → fl.length = 8) ∧
    (s.use_mock = true →
      (search_flights t s remote ("JFK") ("LHR") date).result = mkRouteFlights t ∧
      (search_flights t s remote ("JFK") ("LHR") date).result.length = 8) := by
  refine ⟨rfl, rfl, rfl, ?_, ?_⟩
  · intro pr fl h
    rw [mock_routes_lookup_some t pr fl h]
    exact mkRouteFlights_length t
  · intro hm
    rcases s with ⟨um, ac⟩
    simp only at hm
    subst hm
    exact ⟨rfl, rfl⟩

/-- Claim C6 witness: the concrete JFK-to-LHR route is in the table with its
8 records, and the mock-mode search returns a list of length 8. -/
theorem fallback_dataset_shape_and_jfk_lhr_flights_witness :
    (List.lookup ((("JFK"), ("LHR")) : String × String) (mock_routes tJ) =
       some (mkRouteFlights tJ)) ∧
    (mkRouteFlights tJ).length = 8 ∧
    ((⟨true, 0⟩ : ProviderState).use_mock = true) ∧
    (search_flights tJ ⟨true, 0⟩ RemoteOutcome.exn ("JFK") ("LHR") ("2024-06-01")).result.length = 8 :=
  ⟨rfl,
   (fallback_dataset_shape_and_jfk_lhr_flights tJ ⟨true, 0⟩ RemoteOutcome.exn
      ("2024-06-01")).2.2.2.1 (("JFK"), ("LHR")) (mkRouteFlights tJ) rfl,
   rfl,
   ((fallback_dataset_shape_and_jfk_lhr_flights tJ ⟨true, 0⟩ RemoteOutcome.exn
      ("2024-06-01")).2.2.2.2 rfl).2⟩

/-- Claim C1, counterexample: with the quota counter at its ceiling of 95
(zero remaining) but mock mode not yet flipped, a price query still attempts
the remote LLM call — the price path has no quota guard. -/
theorem price_query_attempts_remote_at_quota_ceiling :
    95 ≤ (95 : Nat) ∧
    (get_flight_price_estimate ⟨false, 95⟩ (LlmOutcome.ok defaultPrice)
       ("New York") ("London")).remoteAttempted = true := by
  decide

/-- Claim C1, amended: once `api_calls` has reached the ceiling of 95,
airport and flight queries are served from the mock dataset with no HTTP
call attempted, leave the counter unchanged and flip (or keep) the provider
in mock mode; the price query, by contrast, consults only the `use_mock`
flag: it skips the remote LLM call when the flag is set, and still attempts
it when the flag is clear even with the quota exhausted. -/
theorem quota_ceiling_forces_mock_for_airports_and_flights
    (s : ProviderState) (h : 95 ≤ s.api_calls) (t : MockTimes)
    (ra : RemoteOutcome (List RawAirport)) (rf : RemoteOutcome (List FlightJson))
    (llm : LlmOutcome) (city dep arr date : String) :
    ((get_city_airports s ra city).remoteAttempted = false ∧
     (get_city_airports s ra city).result = mockAirportsGet city ∧
     (get_city_airports s ra city).state.use_mock = true ∧
     (get_city_airports s ra city).state.api_calls = s.api_calls) ∧
    ((search_flights t s rf dep arr date).remoteAttempted = false ∧
     (search_flights t s rf dep arr date).result = mockRoutesGet t (dep, arr) ∧
     (search_flights t s rf dep arr date).state.use_mock = true ∧
     (search_flights t s rf dep arr date).state.api_calls = s.api_calls) ∧
    (s.use_mock = true →
      (get_flight_price_estimate s llm dep arr).remoteAttempted = false) ∧
    (s.use_mock = false →
      (get_flight_price_estimate s llm dep arr).remoteAttempted = true) := by
  rcases s with ⟨um, ac⟩
  simp only at h
  cases um <;> cases llm <;>
    simp_all [get_city_airports, search_flights, get_flight_price_estimate]

/-- Claim C1 witness: at the ceiling (95 calls used, mock mode not yet set),
airport and flight queries are answered from the mock tables without any
HTTP attempt, while the price query does attempt its remote call. -/
theorem quota_ceiling_forces_mock_for_airports_and_flights_witness :
    95 ≤ (95 : Nat) ∧
    (((get_city_airports ⟨false, 95⟩ RemoteOutcome.exn ("Paris")).remoteAttempted = false ∧
      (get_city_airports ⟨false, 95⟩ RemoteOutcome.exn ("Paris")).result = mockAirportsGet ("Paris") ∧
      (get_city_airports ⟨false, 95⟩ RemoteOutcome.exn ("Paris")).state.use_mock = true ∧
      (get_city_airports ⟨false, 95⟩ RemoteOutcome.exn ("Paris")).state.api_calls =
        (⟨false, 95⟩ : ProviderState).api_calls) ∧
     ((search_flights tJ ⟨false, 95⟩ RemoteOutcome.exn ("JFK") ("LHR") ("2024-06-01")).remoteAttempted = false ∧
      (search_flights tJ ⟨false, 95⟩ RemoteOutcome.exn ("JFK") ("LHR") ("2024-06-01")).result =
        mockRoutesGet tJ (("JFK"), ("LHR")) ∧
      (search_flights tJ ⟨false, 95⟩ RemoteOutcome.exn ("JFK") ("LHR") ("2024-06-01")).state.use_mock = true ∧
      (search_flights tJ ⟨false, 95⟩ RemoteOutcome.exn ("JFK") ("LHR") ("2024-06-01")).state.api_calls =
        (⟨false, 95⟩ : ProviderState).api_calls) ∧
     ((⟨false, 95⟩ : ProviderState).use_mock = true →
       (get_flight_price_estimate ⟨false, 95⟩ LlmOutcome.exn ("JFK") ("LHR")).remoteAttempted = false) ∧
     ((⟨false, 95⟩ : ProviderState).use_mock = false →
       (get_flight_price_estimate ⟨false, 95⟩ LlmOutcome.exn ("JFK") ("LHR")).remoteAttempted = true)) :=
  ⟨by decide,
   quota_ceiling_forces_mock_for_airports_and_flights ⟨false, 95⟩ (by decide) tJ
     RemoteOutcome.exn RemoteOutcome.exn LlmOutcome.exn ("Paris") ("JFK") ("LHR") ("2024-06-01")⟩

/-- Claim C2, counterexample: a transient 500 response makes the airport
fetch return the plain empty list — exactly the value a genuine empty 200
success returns — so the failure is not signalled as a typed failure and is
indistinguishable from a genuine no-results answer.  The flight search
behaves the same way. -/
theorem non_success_status_returns_empty_list :
    (get_city_airports ⟨false, 0⟩ (RemoteOutcome.resp 500 []) ("Paris")).result = [] ∧
    (get_city_airports ⟨false, 0⟩ (RemoteOutcome.resp 200 []) ("Paris")).result = [] ∧
    (search_flights tJ ⟨false, 0⟩ (RemoteOutcome.resp 500 []) ("JFK") ("LHR") ("2024-06-01")).result = [] ∧
    (search_flights tJ ⟨false, 0⟩ (RemoteOutcome.resp 200 []) ("JFK") ("LHR") ("2024-06-01")).result = [] := by
  exact ⟨rfl, rfl, rfl, rfl⟩

/-- Claim C2, amended: on the live path only a 200 response returns remote
data; every non-200 response (401, 403, 5xx alike) makes both fetchers
return the plain empty list, indistinguishable from an empty success, and a
raised exception silently substitutes mock data — no typed failure is ever
signalled to the caller. -/
theorem non_200_yields_untyped_empty_result
    (s : ProviderState) (h1 : s.use_mock = false) (h2 : s.api_calls < 95)
    (code : Nat) (hc : code ≠ 200) (t : MockTimes)
    (da : List RawAirport) (df : List FlightJson) (city dep arr date : String) :
    (get_city_airports s (RemoteOutcome.resp code da) city).result = [] ∧
    (search_flights t s (RemoteOutcome.resp code df) dep arr date).result = [] ∧
    (get_city_airports s RemoteOutcome.exn city).result = mockAirportsGet city ∧
    (search_flights t s RemoteOutcome.exn dep arr date).result = mockRoutesGet t (dep, arr) := by
  rcases s with ⟨um, ac⟩
  simp only at h1
  subst h1
  have hn : ¬ (95 ≤ ac) := Nat.not_le.mpr h2
  simp [get_city_airports, search_flights, hn, hc]

/-- Claim C2 witness: a 500 response at a concrete live state yields the
empty list for both fetchers, and exceptions yield mock data. -/
theorem non_200_yields_untyped_empty_result_witness :
    ((⟨false, 0⟩ : ProviderState).use_mock = false) ∧ (0 : Nat) < 95 ∧ (500 : Nat) ≠ 200 ∧
    ((get_city_airports ⟨false, 0⟩ (RemoteOutcome.resp 500 []) ("Paris")).result = [] ∧
     (search_flights tJ ⟨false, 0⟩ (RemoteOutcome.resp 500 []) ("JFK") ("LHR") ("2024-06-01")).result = [] ∧
     (get_city_airports ⟨false, 0⟩ RemoteOutcome.exn ("Paris")).result = mockAirportsGet ("Paris") ∧
     (search_flights tJ ⟨false, 0⟩ RemoteOutcome.exn ("JFK") ("LHR") ("2024-06-01")).result =
       mockRoutesGet tJ (("JFK"), ("LHR"))) :=
  ⟨rfl, by decide, by decide,
   non_200_yields_untyped_empty_result ⟨false, 0⟩ rfl (by decide) 500 (by decide) tJ [] []
     ("Paris") ("JFK") ("LHR") ("2024-06-01")⟩

/-- Claim C3, counterexample: an HTTP 401 (and 403) response leaves
`use_mock` false — the provider does not enter forced-offline mode — and the
query is answered with the empty list, not with fallback data. -/
theorem http_401_does_not_enter_forced_offline :
    (get_city_airports ⟨false, 0⟩ (RemoteOutcome.resp 401 []) ("Paris")).state.use_mock = false ∧
    (get_city_airports ⟨false, 0⟩ (RemoteOutcome.resp 401 []) ("Paris")).result = [] ∧
    (search_flights tJ ⟨false, 0⟩ (RemoteOutcome.resp 403 []) ("JFK") ("LHR") ("2024-06-01")).state.use_mock = false ∧
    (search_flights tJ ⟨false, 0⟩ (RemoteOutcome.resp 403 []) ("JFK") ("LHR") ("2024-06-01")).result = [] := by
  exact ⟨rfl, rfl, rfl, rfl⟩

/-- On the live path under the quota ceiling, the airports query always
leaves the state at `use_mock = false` with the counter advanced by one,
whatever the remote outcome. -/
theorem get_city_airports_live_state (ac : Nat) (hn : ¬ 95 ≤ ac)
    (ra : RemoteOutcome (List RawAirport)) (city : String) :
    (get_city_airports ⟨false, ac⟩ ra city).state = ⟨false, ac + 1⟩ := by
  rcases ra with ⟨code, da⟩ | _ <;>
    simp [get_city_airports, hn] <;> (try split) <;> (try split) <;> rfl

/-- On the live path under the quota ceiling, the flight search always
leaves the state at `use_mock = false` with the counter advanced by one,
whatever the remote outcome. -/
theorem search_flights_live_state (t : MockTimes) (ac : Nat) (hn : ¬ 95 ≤ ac)
    (rf : RemoteOutcome (List FlightJson)) (dep arr date : String) :
    (search_flights t ⟨false, ac⟩ rf dep arr date).state = ⟨false, ac + 1⟩ := by
  rcases rf with ⟨code, df⟩ | _ <;>
    simp [search_flights, hn] <;> (try split) <;> rfl

/-- Claim C3, amended: no outcome of the remote call — 401/403, any other
status, or an exception — ever flips the provider into mock mode: the flag
stays false and only the quota counter advances; an exception (not an auth
status) falls back to mock data for that single query. -/
theorem remote_outcome_never_flips_mock_mode
    (s : ProviderState) (h1 : s.use_mock = false) (h2 : s.api_calls < 95)
    (t : MockTimes) (ra : RemoteOutcome (List RawAirport))
    (rf : RemoteOutcome (List FlightJson)) (city dep arr date : String) :
    (get_city_airports s ra city).state.use_mock = false ∧
    (get_city_airports s ra city).state.api_calls = s.api_calls + 1 ∧
    (search_flights t s rf dep arr date).state.use_mock = false ∧
    (search_flights t s rf dep arr date).state.api_calls = s.api_calls + 1 ∧
    (get_city_airports s RemoteOutcome.exn city).result = mockAirportsGet city ∧
    (search_flights t s RemoteOutcome.exn dep arr date).result = mockRoutesGet t (dep, arr) := by
  rcases s with ⟨um, ac⟩
  simp only at h1
  subst h1
  have hn : ¬ (95 ≤ ac) := Nat.not_le.mpr h2
  refine ⟨?_, ?_, ?_, ?_, ?_, ?_⟩
  · rw [get_city_airports_live_state ac hn ra city]
  · rw [get_city_airports_live_state ac hn ra city]
  · rw [search_flights_live_state t ac hn rf dep arr date]
  · rw [search_flights_live_state t ac hn rf dep arr date]
  · simp [get_city_airports, hn]
  · simp [search_flights, hn]

/-- Claim C3 witness: concrete 401/403 responses at a live state leave the
flag false and advance the counter by one; concrete exceptions fall back to
mock data for that query. -/
theorem remote_outcome_never_flips_mock_mode_witness :
    ((⟨false, 0⟩ : ProviderState).use_mock = false) ∧ (0 : Nat) < 95 ∧
    ((get_city_airports ⟨false, 0⟩ (RemoteOutcome.resp 401 []) ("Paris")).state.use_mock = false ∧
     (get_city_airports ⟨false, 0⟩ (RemoteOutcome.resp 401 []) ("Paris")).state.api_calls =
       (⟨false, 0⟩ : ProviderState).api_calls + 1 ∧
     (search_flights tJ ⟨false, 0⟩ (RemoteOutcome.resp 403 []) ("JFK") ("LHR") ("2024-06-01")).state.use_mock = false ∧
     (search_flights tJ ⟨false, 0⟩ (RemoteOutcome.resp 403 []) ("JFK") ("LHR") ("2024-06-01")).state.api_calls =
       (⟨false, 0⟩ : ProviderState).api_calls + 1 ∧
     (get_city_airports ⟨false, 0⟩ RemoteOutcome.exn ("Paris")).result = mockAirportsGet ("Paris") ∧
     (search_flights tJ ⟨false, 0⟩ RemoteOutcome.exn ("JFK") ("LHR") ("2024-06-01")).result =
       mockRoutesGet tJ (("JFK"), ("LHR"))) :=
  ⟨rfl, by decide,
   remote_outcome_never_flips_mock_mode ⟨false, 0⟩ rfl (by decide) tJ
     (RemoteOutcome.resp 401 []) (RemoteOutcome.resp 403 []) ("Paris") ("JFK") ("LHR") ("2024-06-01")⟩

/-- Claim C4, counterexample: a successfully parsed LLM price result is
returned to the caller exactly as parsed, with `min_price > max_price` — it
is not discarded and no fallback estimate is substituted. -/
theorem llm_price_returned_without_validation :
    (get_flight_price_estimate ⟨false, 0⟩ (LlmOutcome.ok invalidPrice)
       ("New York") ("London")).result = some invalidPrice ∧
    ¬ (invalidPrice.min_price ≤ invalidPrice.max_price) := by decide

/-- Claim C4, amended: every price estimate served from the mock tables
satisfies `0 ≤ min_price ≤ max_price`; but on the live path a successfully
parsed LLM result is returned without any numeric validation (whatever its
values), and only a raised exception makes the caller receive the mock
fallback estimate. -/
theorem price_validation_only_on_mock_path
    (s : ProviderState) (llm : LlmOutcome) (p : Price) (dep arr : String) :
    (s.use_mock = true →
      (get_flight_price_estimate s llm dep arr).result = some (mockPricesGet dep arr) ∧
      0 ≤ (mockPricesGet dep arr).min_price ∧
      (mockPricesGet dep arr).min_price ≤ (mockPricesGet dep arr).max_price) ∧
    (s.use_mock = false →
      (get_flight_price_estimate s (LlmOutcome.ok p) dep arr).result = some p) ∧
    (s.use_mock = false →
      (get_flight_price_estimate s LlmOutcome.exn dep arr).result = some (mockPricesGet dep arr)) := by
  have hv := mockPricesGet_valid dep arr
  rcases s with ⟨um, ac⟩
  cases um <;> cases llm <;> simp_all [get_flight_price_estimate]

/-- Claim C4 witness: the mock estimate for a concrete route is ordered and
non-negative, and a concrete parsed LLM result is passed through unchanged. -/
theorem price_validation_only_on_mock_path_witness :
    ((⟨true, 0⟩ : ProviderState).use_mock = true) ∧
    ((get_flight_price_estimate ⟨true, 0⟩ LlmOutcome.exn ("New York") ("London")).result =
       some (mockPricesGet ("New York") ("London")) ∧
     0 ≤ (mockPricesGet ("New York") ("London")).min_price ∧
     (mockPricesGet ("New York") ("London")).min_price ≤
       (mockPricesGet ("New York") ("London")).max_price) ∧
    ((⟨false, 0⟩ : ProviderState).use_mock = false) ∧
    (get_flight_price_estimate ⟨false, 0⟩ (LlmOutcome.ok invalidPrice)
       ("New York") ("London")).result = some invalidPrice :=
  ⟨rfl,
   (price_validation_only_on_mock_path ⟨true, 0⟩ LlmOutcome.exn invalidPrice
      ("New York") ("London")).1 rfl,
   rfl,
   (price_validation_only_on_mock_path ⟨false, 0⟩ (LlmOutcome.ok invalidPrice) invalidPrice
      ("New York") ("London")).2.1 rfl⟩
